import Mathlib

/-!
Verification of the aws-iam-root-user-activity-monitor repository.

The repository ships the infrastructure for a root-user activity monitor:
a CDK stack (`src/cdk/lib/root-activity-monitor-stack.ts`), a CDK app entry
point (`src/cdk/bin/app.ts`) and a Terraform module
(`src/root-activity-monitor-module/outputs.tf`).  Both infrastructure
variants deploy a Python Lambda (`RootActivityLambda.py`) whose code is not
part of the repository snapshot; the classification and notification engine
it implements is therefore modelled here from the specification, while the
CDK stack and app entry point are embedded directly from their TypeScript
source.
-/

namespace RootActivityMonitor

/-! ### Severity classification (engine, 4.2) -/

/-- The three severity tiers of the engine. -/
inductive SeverityTier where
  | CRITICAL : SeverityTier
  | HIGH : SeverityTier
  | MEDIUM : SeverityTier
deriving Repr, DecidableEq

/-- Modelled from the spec: the CRITICAL action-name set of the missing
`RootActivityLambda.py` — direct-credential and identity-permission
mutations (4.2 seed content). -/
def CRITICAL_ACTIONS : List String :=
  ["ConsoleLogin", "CreateAccessKey", "EnableMFADevice", "DeactivateMFADevice",
   "PasswordRecoveryRequested", "AttachUserPolicy"]

/-- Modelled from the spec: the HIGH action-name set of the missing
`RootActivityLambda.py` — actions that remove visibility or provision
resources at scale (4.2 seed content). -/
def HIGH_ACTIONS : List String :=
  ["StopLogging", "DeleteTrail", "DeleteBucket", "RunInstances"]

/-- Modelled from the spec: `classify` over explicit configuration sets —
membership test against a CRITICAL set, else a HIGH set, else MEDIUM,
CRITICAL checked first (4.2). -/
def classifyWith (crit high : List String) (actionName : String) : SeverityTier :=
  if actionName ∈ crit then SeverityTier.CRITICAL
  else if actionName ∈ high then SeverityTier.HIGH
  else SeverityTier.MEDIUM

/-- Modelled from the spec: `classify(actionName) -> SeverityTier` of the
missing `RootActivityLambda.py`, instantiated with the seed configuration. -/
def classify (actionName : String) : SeverityTier :=
  classifyWith CRITICAL_ACTIONS HIGH_ACTIONS actionName

/-- C1: membership in the CRITICAL set yields CRITICAL, membership in the
HIGH set alone yields HIGH, everything else yields MEDIUM, and an action in
both sets resolves to CRITICAL because CRITICAL is checked first. -/
theorem classify_totally_classifies (a : String) :
    (a ∈ CRITICAL_ACTIONS → classify a = SeverityTier.CRITICAL) ∧
    (a ∉ CRITICAL_ACTIONS → a ∈ HIGH_ACTIONS → classify a = SeverityTier.HIGH) ∧
    (a ∉ CRITICAL_ACTIONS → a ∉ HIGH_ACTIONS → classify a = SeverityTier.MEDIUM) ∧
    (∀ crit high : List String, a ∈ crit → a ∈ high →
      classifyWith crit high a = SeverityTier.CRITICAL) := by
  refine ⟨?_, ?_, ?_, ?_⟩
  · intro hc
    simp [classify, classifyWith, hc]
  · intro hc hh
    simp [classify, classifyWith, hc, hh]
  · intro hc hh
    simp [classify, classifyWith, hc, hh]
  · intro crit high hc _hh
    simp [classifyWith, hc]

/-- C1 witness: the seed scenarios of the spec (ConsoleLogin CRITICAL,
StopLogging HIGH, ListBuckets MEDIUM, a doubly-listed action CRITICAL). -/
theorem classify_totally_classifies_witness :
    classify "ConsoleLogin" = SeverityTier.CRITICAL ∧
    classify "StopLogging" = SeverityTier.HIGH ∧
    classify "ListBuckets" = SeverityTier.MEDIUM ∧
    classifyWith ["X"] ["X"] "X" = SeverityTier.CRITICAL :=
  ⟨(classify_totally_classifies "ConsoleLogin").1 (by decide),
   (classify_totally_classifies "StopLogging").2.1 (by decide) (by decide),
   (classify_totally_classifies "ListBuckets").2.2.1 (by decide) (by decide),
   (classify_totally_classifies "X").2.2.2 ["X"] ["X"] (by decide) (by decide)⟩

/-! ### Data model (engine, section 3) -/

/-- The input record of one invocation (section 3, ActivityEvent). -/
structure ActivityEvent where
  accountId : String
  eventName : String
  userIdentityType : Option String
  userIdentityQualifier : Option String
  eventTime : String
  sourceIP : String
  userAgent : String
  region : String
  errorCode : Option String
  errorMessage : Option String
  requestParameters : List (String × String)
  detailType : String
deriving Repr, DecidableEq

/-- The fields the extractor pulls out of an ActivityEvent (4.1). -/
structure Extracted where
  actionName : String
  accountId : String
  timestamp : String
  sourceIP : String
  userAgent : String
  region : String
  errorCode : Option String
  errorMessage : Option String
  rawParameters : List (String × String)
  eventCategory : String
deriving Repr, DecidableEq

/-- The derived, per-invocation incident record (section 3, IncidentRecord). -/
structure IncidentRecord where
  severity : SeverityTier
  accountId : String
  accountAlias : String
  action : String
  eventCategory : String
  timestamp : String
  sourceIP : String
  userAgent : String
  region : String
  errorCode : Option String
  errorMessage : Option String
  rawParameters : List (String × String)
  remediation : List String
deriving Repr, DecidableEq

/-- Modelled from the spec: the static remediation table of the missing
`RootActivityLambda.py`, keyed by tier (4.4). -/
def REMEDIATION : SeverityTier → List String
  | SeverityTier.CRITICAL =>
      ["rotate credentials immediately", "audit recent actions", "notify security team"]
  | SeverityTier.HIGH =>
      ["verify action was authorized", "review affected resource state"]
  | SeverityTier.MEDIUM =>
      ["confirm action was authorized"]

/-! ### Subject rendering (engine, 4.5) -/

/-- Severity tag as it appears in rendered output. -/
def severityTag : SeverityTier → String
  | SeverityTier.CRITICAL => "CRITICAL"
  | SeverityTier.HIGH => "HIGH"
  | SeverityTier.MEDIUM => "MEDIUM"

/-- Modelled from the spec: character-level truncation to 100 characters
from the right, as the missing renderer applies to the subject (4.5). -/
def truncate100 (s : String) : String :=
  if s.length ≤ 100 then s else String.mk (s.data.take 100)

/-- The fixed leading part of the subject: `"[{severity}] Root: {action} in "`. -/
def subjectHead (i : IncidentRecord) : String :=
  "[" ++ severityTag i.severity ++ "] Root: " ++ i.action ++ " in "

/-- Modelled from the spec: the subject line of the missing renderer —
`"[{severity}] Root: {action} in {accountAliasOrId}"` truncated to 100
characters from the right if exceeded (4.5). -/
def renderSubject (i : IncidentRecord) : String :=
  truncate100 (subjectHead i ++ i.accountAlias)

/-- Boolean test that `p` occurs intact at the front of `s`. -/
def leadsWith : List Char → List Char → Bool
  | [], _ => true
  | _ :: _, [] => false
  | a :: as, b :: bs => a == b && leadsWith as bs

theorem leadsWith_append (l t : List Char) : leadsWith l (l ++ t) = true := by
  induction l with
  | nil => rfl
  | cons a as ih => simp [leadsWith, ih]

theorem leadsWith_take (l t : List Char) (n : Nat) (h : l.length ≤ n) :
    leadsWith l ((l ++ t).take n) = true := by
  rw [List.take_append_eq_append_take, List.take_of_length_le h]
  exact leadsWith_append l (t.take (n - l.length))

/-- An incident whose action name is itself 100 characters long: the fixed
subject part already exceeds the 100-character bound, so right-truncation
must cut into the action name. -/
def longActionIncident : IncidentRecord :=
  { severity := SeverityTier.MEDIUM
    accountId := "123456789012"
    accountAlias := "prod"
    action := String.mk (List.replicate 100 'A')
    eventCategory := "AWS API Call via CloudTrail"
    timestamp := "2024-01-01T00:00:00Z"
    sourceIP := "1.2.3.4"
    userAgent := "aws-cli"
    region := "eu-west-1"
    errorCode := none
    errorMessage := none
    rawParameters := []
    remediation := REMEDIATION SeverityTier.MEDIUM }

/-- An incident whose resolved account alias is 500 characters long, the
input combination the spec singles out for the subject-length bound. -/
def aliasLen500Incident : IncidentRecord :=
  { severity := SeverityTier.CRITICAL
    accountId := "123456789012"
    accountAlias := String.mk (List.replicate 500 'a')
    action := "ConsoleLogin"
    eventCategory := "AWS Console Sign In via CloudTrail"
    timestamp := "2024-01-01T00:00:00Z"
    sourceIP := "1.2.3.4"
    userAgent := "Mozilla/5.0"
    region := "eu-west-1"
    errorCode := none
    errorMessage := none
    rawParameters := []
    remediation := REMEDIATION SeverityTier.CRITICAL }

set_option maxRecDepth 4000 in
/-- C2 counterexample: for the incident whose action name is 100 characters
long, the subject is still bounded by 100 characters but the action name does
not survive truncation intact, so the conjunction claimed for every
IncidentRecord fails at this input. -/
theorem subject_survival_counterexample :
    ¬ ((renderSubject longActionIncident).length ≤ 100 ∧
       leadsWith (subjectHead longActionIncident).data
         (renderSubject longActionIncident).data = true) := by
  decide

/-- C2 (amended): the subject is always at most 100 characters, and whenever
the fixed part `"[{severity}] Root: {action} in "` itself fits in 100
characters the truncation removes only trailing account context, so the
severity tag and the action name survive intact at the front of the
subject. -/
theorem subject_bounded_and_head_survives (i : IncidentRecord) :
    (renderSubject i).length ≤ 100 ∧
    ((subjectHead i).length ≤ 100 →
      leadsWith (subjectHead i).data (renderSubject i).data = true) := by
  constructor
  · show (truncate100 _).length ≤ 100
    unfold truncate100
    split
    · assumption
    · show (String.mk _).data.length ≤ 100
      simp
  · intro h
    show leadsWith _ (truncate100 _).data = true
    unfold truncate100
    split
    · show leadsWith (subjectHead i).data
        ((subjectHead i).data ++ i.accountAlias.data) = true
      exact leadsWith_append _ _
    · show leadsWith (subjectHead i).data
        (((subjectHead i).data ++ i.accountAlias.data).take 100) = true
      exact leadsWith_take _ _ 100 h

/-- C2 witness: a CRITICAL ConsoleLogin incident whose resolved account alias
is 500 characters long still renders a subject of at most 100 characters with
the severity tag and action name intact at the front. -/
theorem subject_bounded_and_head_survives_witness :
    (renderSubject aliasLen500Incident).length ≤ 100 ∧
    leadsWith (subjectHead aliasLen500Incident).data
      (renderSubject aliasLen500Incident).data = true :=
  ⟨(subject_bounded_and_head_survives aliasLen500Incident).1,
   (subject_bounded_and_head_survives aliasLen500Incident).2 (by decide)⟩

/-! ### Field extraction, alias resolution, composition (engine, 4.1-4.4) -/

/-- The error taxonomy of the engine (section 7): the defensive precondition
violation and the unrecovered dispatch failure, the only conditions that
leave the pipeline. -/
inductive EngineError where
  | NotRootActivity : EngineError
  | DispatchFailure : String → EngineError
deriving Repr, DecidableEq

/-- The fields of an ActivityEvent as the extractor normalizes them. -/
def extractFields (e : ActivityEvent) : Extracted :=
  { actionName := e.eventName
    accountId := e.accountId
    timestamp := e.eventTime
    sourceIP := e.sourceIP
    userAgent := e.userAgent
    region := e.region
    errorCode := e.errorCode
    errorMessage := e.errorMessage
    rawParameters := e.requestParameters
    eventCategory := e.detailType }

/-- Modelled from the spec: the field extractor of the missing
`RootActivityLambda.py` — fails closed with `NotRootActivity` if the
identity type is absent or not "Root" (4.1). -/
def extract (e : ActivityEvent) : Except EngineError Extracted :=
  if e.userIdentityType = some "Root" then Except.ok (extractFields e)
  else Except.error EngineError.NotRootActivity

/-- Modelled from the spec: `resolve(accountId) -> string` of the missing
`RootActivityLambda.py`.  The external identity lookup is a collaborator
value: an error message on failure, `none` when the lookup returns empty, or
a resolved alias.  On any failure the raw accountId is returned unchanged,
and the function is total — it never raises (4.3). -/
def resolve (lookup : Except String (Option String)) (accountId : String) : String :=
  match lookup with
  | Except.error _ => accountId
  | Except.ok none => accountId
  | Except.ok (some a) => a

/-- Modelled from the spec: `compose(extracted fields, severity,
resolvedAlias) -> IncidentRecord`, attaching the static remediation list
keyed by tier (4.4). -/
def compose (x : Extracted) (sev : SeverityTier) (resolvedAlias : String) : IncidentRecord :=
  { severity := sev
    accountId := x.accountId
    accountAlias := resolvedAlias
    action := x.actionName
    eventCategory := x.eventCategory
    timestamp := x.timestamp
    sourceIP := x.sourceIP
    userAgent := x.userAgent
    region := x.region
    errorCode := x.errorCode
    errorMessage := x.errorMessage
    rawParameters := x.rawParameters
    remediation := REMEDIATION sev }

/-! ### Structured body (engine, 4.5) -/

/-- The machine-decodable value space of the structured body. -/
inductive Json where
  | null : Json
  | str : String → Json
  | arr : List Json → Json
  | obj : List (String × Json) → Json
deriving Repr

/-- Encoding of an optional string field: absent fields mirror the input. -/
def encodeOptStr : Option String → Json
  | none => Json.null
  | some s => Json.str s

/-- Decoding of an optional string field. -/
def decodeOptStr : Json → Option (Option String)
  | Json.null => some none
  | Json.str s => some (some s)
  | _ => none

/-- Decoding of one raw request parameter. -/
def decodeParam : String × Json → Option (String × String)
  | (k, Json.str v) => some (k, v)
  | _ => none

/-- Decoding of the raw request-parameter block. -/
def decodeParams : List (String × Json) → Option (List (String × String))
  | [] => some []
  | p :: t => (decodeParam p).bind fun q => (decodeParams t).map fun qs => q :: qs

/-- Decoding of one remediation entry. -/
def decodeStr : Json → Option String
  | Json.str s => some s
  | _ => none

/-- Decoding of the remediation list. -/
def decodeStrs : List Json → Option (List String)
  | [] => some []
  | x :: t => (decodeStr x).bind fun s => (decodeStrs t).map fun ss => s :: ss

/-- Parsing a severity tag back to its tier. -/
def parseTier : String → Option SeverityTier
  | "CRITICAL" => some SeverityTier.CRITICAL
  | "HIGH" => some SeverityTier.HIGH
  | "MEDIUM" => some SeverityTier.MEDIUM
  | _ => none

/-- Modelled from the spec: the structured body of the missing renderer — a
complete machine-decodable encoding of every IncidentRecord field, raw
parameters verbatim (4.5). -/
def encodeIncident (i : IncidentRecord) : Json :=
  Json.obj
    [("severity", Json.str (severityTag i.severity)),
     ("account", Json.str i.accountId),
     ("accountAlias", Json.str i.accountAlias),
     ("action", Json.str i.action),
     ("eventCategory", Json.str i.eventCategory),
     ("timestamp", Json.str i.timestamp),
     ("sourceIP", Json.str i.sourceIP),
     ("userAgent", Json.str i.userAgent),
     ("region", Json.str i.region),
     ("errorCode", encodeOptStr i.errorCode),
     ("errorMessage", encodeOptStr i.errorMessage),
     ("requestParameters", Json.obj (i.rawParameters.map fun p => (p.1, Json.str p.2))),
     ("remediation", Json.arr (i.remediation.map Json.str))]

/-- Decoder for the structured body: reconstructs the IncidentRecord from
the encoding, or `none` for a value not of the expected shape. -/
def decodeIncident : Json → Option IncidentRecord
  | Json.obj [(k1, Json.str sev), (k2, Json.str acct),
      (k3, Json.str al), (k4, Json.str act),
      (k5, Json.str cat), (k6, Json.str ts),
      (k7, Json.str ip), (k8, Json.str ua),
      (k9, Json.str rg), (k10, ec), (k11, em),
      (k12, Json.obj ps), (k13, Json.arr rem)] =>
    if k1 == "severity" && k2 == "account" && k3 == "accountAlias" &&
       k4 == "action" && k5 == "eventCategory" && k6 == "timestamp" &&
       k7 == "sourceIP" && k8 == "userAgent" && k9 == "region" &&
       k10 == "errorCode" && k11 == "errorMessage" &&
       k12 == "requestParameters" && k13 == "remediation" then
      (parseTier sev).bind fun tier =>
        (decodeOptStr ec).bind fun ecv =>
          (decodeOptStr em).bind fun emv =>
            (decodeParams ps).bind fun params =>
              (decodeStrs rem).map fun remv =>
                { severity := tier, accountId := acct, accountAlias := al,
                  action := act, eventCategory := cat, timestamp := ts,
                  sourceIP := ip, userAgent := ua, region := rg,
                  errorCode := ecv, errorMessage := emv,
                  rawParameters := params, remediation := remv }
    else none
  | _ => none

/-! ### Text body and payload (engine, 4.5) -/

/-- A labelled line for an optional field, rendered only if present. -/
def renderOptLine (label : String) : Option String → List String
  | none => []
  | some s => [label ++ ": " ++ s]

/-- Modelled from the spec: the ordered multi-line text body of the missing
renderer — account, action, category, timestamp, source IP, user agent,
region, error fields if present, bulleted remediation, and raw parameters as
a key/value block (4.5). -/
def renderTextBody (i : IncidentRecord) : String :=
  String.intercalate "\n"
    (["Account: " ++ i.accountAlias ++ " (" ++ i.accountId ++ ")",
      "Action: " ++ i.action,
      "Event Category: " ++ i.eventCategory,
      "Timestamp: " ++ i.timestamp,
      "Source IP: " ++ i.sourceIP,
      "User Agent: " ++ i.userAgent,
      "Region: " ++ i.region]
     ++ renderOptLine "Error Code" i.errorCode
     ++ renderOptLine "Error Message" i.errorMessage
     ++ ["Recommended Actions:"]
     ++ i.remediation.map (fun r => "- " ++ r)
     ++ ["Request Parameters:"]
     ++ i.rawParameters.map (fun p => "  " ++ p.1 ++ ": " ++ p.2))

/-- The rendered notification payload (section 3, NotificationPayload). -/
structure NotificationPayload where
  subject : String
  textBody : String
  structuredBody : Json
deriving Repr

/-- Modelled from the spec: `render(incident) -> {subject, textBody,
structuredBody}` of the missing `RootActivityLambda.py` (4.5). -/
def render (i : IncidentRecord) : NotificationPayload :=
  { subject := renderSubject i
    textBody := renderTextBody i
    structuredBody := encodeIncident i }

/-! ### Pipeline (engine, section 2 and 4.6) -/

/-- The incident the pipeline composes for a given lookup outcome and
event: extraction, classification, alias resolution, composition. -/
def pipelineIncident (lookup : Except String (Option String))
    (e : ActivityEvent) : IncidentRecord :=
  compose (extractFields e) (classify e.eventName) (resolve lookup e.accountId)

/-- Modelled from the spec: one invocation of the missing
`RootActivityLambda.py` handler.  `lookup` is the alias-lookup
collaborator outcome and `channel` the notification channel; the second
component counts how many times the channel was invoked.  Extraction fails
closed before classification; a channel error becomes `DispatchFailure`
unchanged with no internal retry (sections 2, 4.6, 7). -/
def runPipeline (lookup : Except String (Option String))
    (channel : NotificationPayload → Except String Unit)
    (e : ActivityEvent) : Except EngineError NotificationPayload × Nat :=
  match extract e with
  | Except.error err => (Except.error err, 0)
  | Except.ok x =>
    let payload := render (compose x (classify x.actionName) (resolve lookup x.accountId))
    match channel payload with
    | Except.error msg => (Except.error (EngineError.DispatchFailure msg), 1)
    | Except.ok _ => (Except.ok payload, 1)

/-- A concrete root console sign-in event, the first scenario of the spec. -/
def rootConsoleLoginEvent : ActivityEvent :=
  { accountId := "123456789012"
    eventName := "ConsoleLogin"
    userIdentityType := some "Root"
    userIdentityQualifier := none
    eventTime := "2024-01-01T00:00:00Z"
    sourceIP := "1.2.3.4"
    userAgent := "Mozilla/5.0"
    region := "eu-west-1"
    errorCode := none
    errorMessage := none
    requestParameters := []
    detailType := "AWS Console Sign In via CloudTrail" }

/-- The same event as performed by an IAM user instead of root. -/
def iamUserEvent : ActivityEvent :=
  { rootConsoleLoginEvent with userIdentityType := some "IAMUser" }

/-- C3: for an event whose identity type is absent or not "Root", the
pipeline signals `NotRootActivity`, produces no payload, and never invokes
the notification channel — no classification and no dispatch happen. -/
theorem notRoot_fails_closed (lookup : Except String (Option String))
    (channel : NotificationPayload → Except String Unit) (e : ActivityEvent)
    (h : e.userIdentityType ≠ some "Root") :
    runPipeline lookup channel e = (Except.error EngineError.NotRootActivity, 0) := by
  unfold runPipeline extract
  simp [h]

/-- C3 witness: an `IAMUser` console sign-in is refused with
`NotRootActivity` and zero channel invocations, even when lookup and
channel would succeed. -/
theorem notRoot_fails_closed_witness :
    runPipeline (Except.ok (some "prod")) (fun _ => Except.ok ()) iamUserEvent
      = (Except.error EngineError.NotRootActivity, 0) :=
  notRoot_fails_closed (Except.ok (some "prod")) (fun _ => Except.ok ())
    iamUserEvent (by decide)

/-- C4: on any lookup failure — an error such as permission denied or
throttling, or an empty result — `resolve` returns the raw accountId
unchanged, and the incident the pipeline composes carries the raw account id
in both its account fields.  `resolve` is total, so it never raises. -/
theorem resolve_failure_degrades (lookup : Except String (Option String))
    (accountId : String) (e : ActivityEvent)
    (h : (∃ m, lookup = Except.error m) ∨ lookup = Except.ok none) :
    resolve lookup accountId = accountId ∧
    (pipelineIncident lookup e).accountAlias = e.accountId ∧
    (pipelineIncident lookup e).accountId = e.accountId := by
  rcases h with ⟨m, rfl⟩ | rfl <;>
    simp [resolve, pipelineIncident, compose, extractFields]

/-- C4 witness: a permission-denied lookup leaves the raw account id in
place for the root console sign-in event. -/
theorem resolve_failure_degrades_witness :
    resolve (Except.error "AccessDenied") "123456789012" = "123456789012" ∧
    (pipelineIncident (Except.error "AccessDenied") rootConsoleLoginEvent).accountAlias
      = rootConsoleLoginEvent.accountId ∧
    (pipelineIncident (Except.error "AccessDenied") rootConsoleLoginEvent).accountId
      = rootConsoleLoginEvent.accountId :=
  resolve_failure_degrades (Except.error "AccessDenied") "123456789012"
    rootConsoleLoginEvent (Or.inl ⟨"AccessDenied", rfl⟩)

/-- C5: when the notification channel fails, the pipeline terminates with
`DispatchFailure` carrying the channel error unchanged, and the channel
was invoked exactly once — no internal retry. -/
theorem dispatch_failure_propagates (lookup : Except String (Option String))
    (channel : NotificationPayload → Except String Unit) (e : ActivityEvent)
    (msg : String) (hroot : e.userIdentityType = some "Root")
    (hch : channel (render (pipelineIncident lookup e)) = Except.error msg) :
    runPipeline lookup channel e
      = (Except.error (EngineError.DispatchFailure msg), 1) := by
  have hx : extract e = Except.ok (extractFields e) := by simp [extract, hroot]
  have hc : channel (render (compose (extractFields e)
      (classify (extractFields e).actionName)
      (resolve lookup (extractFields e).accountId))) = Except.error msg := hch
  simp [runPipeline, hx, hc]

/-- C5 witness: an always-failing channel makes the pipeline end in
`DispatchFailure "SNS unavailable"` after exactly one dispatch attempt. -/
theorem dispatch_failure_propagates_witness :
    runPipeline (Except.ok (some "prod")) (fun _ => Except.error "SNS unavailable")
      rootConsoleLoginEvent
      = (Except.error (EngineError.DispatchFailure "SNS unavailable"), 1) :=
  dispatch_failure_propagates (Except.ok (some "prod"))
    (fun _ => Except.error "SNS unavailable") rootConsoleLoginEvent
    "SNS unavailable" (by decide) rfl

/-- C6: rendering is deterministic — two runs of `render` on identical
IncidentRecords yield byte-identical subject, text body and structured
body. -/
theorem render_deterministic (i j : IncidentRecord) (h : i = j) :
    (render i).subject = (render j).subject ∧
    (render i).textBody = (render j).textBody ∧
    (render i).structuredBody = (render j).structuredBody := by
  subst h
  exact ⟨rfl, rfl, rfl⟩

/-- C6 witness: the two-run equality at a concrete incident. -/
theorem render_deterministic_witness :
    (render longActionIncident).subject = (render longActionIncident).subject ∧
    (render longActionIncident).textBody = (render longActionIncident).textBody ∧
    (render longActionIncident).structuredBody
      = (render longActionIncident).structuredBody :=
  render_deterministic longActionIncident longActionIncident rfl

theorem parseTier_severityTag (t : SeverityTier) : parseTier (severityTag t) = some t := by
  cases t <;> rfl

theorem decodeOptStr_encodeOptStr (o : Option String) :
    decodeOptStr (encodeOptStr o) = some o := by
  cases o <;> rfl

theorem decodeParams_encoded (ps : List (String × String)) :
    decodeParams (ps.map fun p => (p.1, Json.str p.2)) = some ps := by
  induction ps with
  | nil => rfl
  | cons p t ih => cases p; simp [decodeParams, decodeParam, ih]

theorem decodeStrs_encoded (xs : List String) :
    decodeStrs (xs.map Json.str) = some xs := by
  induction xs with
  | nil => rfl
  | cons x t ih => simp [decodeStrs, decodeStr, ih]

/-- C7: the structured body is a lossless round-trip — decoding the
structured body produced by `render` reconstructs every field of the
IncidentRecord, raw parameters verbatim. -/
theorem structuredBody_roundtrip (i : IncidentRecord) :
    decodeIncident (render i).structuredBody = some i := by
  have h : (render i).structuredBody = encodeIncident i := rfl
  rw [h]
  cases i
  dsimp only [encodeIncident, decodeIncident]
  simp [parseTier_severityTag, decodeOptStr_encodeOptStr,
    decodeParams_encoded, decodeStrs_encoded]

/-! ### Event-source filter (CDK stack `HubRootActivityRule`, Terraform
`hub-root-activity-rule`) -/

/-- Embedded from the event pattern of `HubRootActivityRule`
(`root-activity-monitor-stack.ts`) and of `hub-root-activity-rule`
(`outputs.tf`): the allowed detail types. -/
def HUB_RULE_DETAIL_TYPES : List String :=
  ["AWS API Call via CloudTrail",
   "AWS Console Sign In via CloudTrail",
   "AWS Service Event via CloudTrail"]

/-- Embedded from the same event pattern: the allowed
`detail.userIdentity.type` values. -/
def HUB_RULE_IDENTITY_TYPES : List String := ["Root"]

/-- EventBridge pattern semantics for the rule: every constrained field must
carry one of the listed values; a missing `userIdentity.type` does not
match. -/
def matchesHubRootActivityRule (e : ActivityEvent) : Prop :=
  e.detailType ∈ HUB_RULE_DETAIL_TYPES ∧
  ∃ t, e.userIdentityType = some t ∧ t ∈ HUB_RULE_IDENTITY_TYPES

/-- The only target of the rule is the monitor Lambda, so an event is
delivered to the classifier exactly when the rule pattern matches it. -/
def deliveredToClassifier (e : ActivityEvent) : Prop :=
  matchesHubRootActivityRule e

/-- C8: every event the event-source collaborator delivers to the classifier
has identity type "Root" and one of exactly the three CloudTrail category
types; an event whose identity is not root never reaches the classifier. -/
theorem hub_rule_delivers_only_root (e : ActivityEvent)
    (h : deliveredToClassifier e) :
    e.userIdentityType = some "Root" ∧
    (e.detailType = "AWS API Call via CloudTrail" ∨
     e.detailType = "AWS Console Sign In via CloudTrail" ∨
     e.detailType = "AWS Service Event via CloudTrail") := by
  obtain ⟨hd, t, ht, hmem⟩ := h
  refine ⟨?_, ?_⟩
  · simp only [HUB_RULE_IDENTITY_TYPES, List.mem_singleton] at hmem
    rw [ht, hmem]
  · simpa [HUB_RULE_DETAIL_TYPES] using hd

/-- C8 witness: the root console sign-in event is delivered and indeed
carries the root identity and a recognized category type. -/
theorem hub_rule_delivers_only_root_witness :
    rootConsoleLoginEvent.userIdentityType = some "Root" ∧
    (rootConsoleLoginEvent.detailType = "AWS API Call via CloudTrail" ∨
     rootConsoleLoginEvent.detailType = "AWS Console Sign In via CloudTrail" ∨
     rootConsoleLoginEvent.detailType = "AWS Service Event via CloudTrail") :=
  hub_rule_delivers_only_root rootConsoleLoginEvent
    ⟨by decide, "Root", rfl, by decide⟩

/-! ### CDK stack and app entry point (`root-activity-monitor-stack.ts`,
`bin/app.ts`) -/

/-- Embedded from `RootActivityMonitorStackProps`: optional topic name,
required notification email, optional organization id. -/
structure RootActivityMonitorStackProps where
  snsTopicName : Option String
  notificationEmail : String
  organizationId : Option String
deriving Repr, DecidableEq

/-- The fields of the `CfnEventBusPolicy` named `OrgAccessPolicy`. -/
structure EventBusPolicy where
  eventBusName : String
  statementId : String
  action : String
  principal : String
  conditionType : String
  conditionKey : String
  conditionValue : String
deriving Repr, DecidableEq

/-- Embedded from `root-activity-monitor-stack.ts` lines 115-127:
`if (props.organizationId)` guards creation of `OrgAccessPolicy`, so by
JavaScript truthiness both an absent and an empty organizationId create no
policy; otherwise the policy allows `events:PutEvents` to principal `*`
under a `StringEquals` condition on `aws:PrincipalOrgID`. -/
def orgAccessPolicy (props : RootActivityMonitorStackProps) : Option EventBusPolicy :=
  match props.organizationId with
  | none => none
  | some orgId =>
    if orgId = "" then none
    else
      some { eventBusName := "hub-root-activity"
             statementId := "OrganizationAccess"
             action := "events:PutEvents"
             principal := "*"
             conditionType := "StringEquals"
             conditionKey := "aws:PrincipalOrgID"
             conditionValue := orgId }

/-- The observable configuration the stack constructor synthesizes. -/
structure SynthesizedStack where
  snsTopicName : String
  emailSubscription : String
  deadLetterQueueName : String
  lambdaFunctionName : String
  eventBusName : String
  orgPolicy : Option EventBusPolicy
deriving Repr, DecidableEq

/-- Embedded from the `RootActivityMonitorStack` constructor: topic name
defaults by nullish coalescing, the notification email becomes the
email subscription, and the org policy is created per `orgAccessPolicy`. -/
def mkStack (props : RootActivityMonitorStackProps) : SynthesizedStack :=
  { snsTopicName := props.snsTopicName.getD "aws-iam-root-user-activity-monitor"
    emailSubscription := props.notificationEmail
    deadLetterQueueName := "root-activity-monitor-dlq"
    lambdaFunctionName := "root-activity-monitor"
    eventBusName := "hub-root-activity"
    orgPolicy := orgAccessPolicy props }

/-- JavaScript `a || b` on optional strings: an absent or empty left operand
falls through to the right operand. -/
def jsOr (a b : Option String) : Option String :=
  match a with
  | some s => if s = "" then b else some s
  | none => b

/-- Embedded from `bin/app.ts`: resolve the notification email from context
or environment, throw before constructing the stack when it is missing or
empty, then construct the stack with the resolved configuration. -/
def appMain (ctxEmail envEmail ctxOrg envOrg ctxTopic : Option String) :
    Except String SynthesizedStack :=
  match jsOr ctxEmail envEmail with
  | none => Except.error "Notification email is required"
  | some email =>
    if email = "" then Except.error "Notification email is required"
    else
      Except.ok (mkStack
        { snsTopicName := jsOr ctxTopic none
          notificationEmail := email
          organizationId := jsOr ctxOrg envOrg })

/-- C9 counterexample: with `organizationId` provided as the empty string,
the props carry an organizationId but JavaScript truthiness creates no
`OrgAccessPolicy`, so "created if and only if organizationId is provided"
fails at this input. -/
theorem orgAccessPolicy_iff_counterexample :
    ¬ (((orgAccessPolicy { snsTopicName := none,
                           notificationEmail := "sec@example.com",
                           organizationId := some "" }).isSome = true) ↔
       ((some "" : Option String).isSome = true)) := by
  decide

/-- C9 (amended): `OrgAccessPolicy` is created if and only if a non-empty
organizationId is provided in the stack props, and when created it allows
`events:PutEvents` to principal `*` only under the `StringEquals` condition
`aws:PrincipalOrgID = organizationId`. -/
theorem orgAccessPolicy_correct (props : RootActivityMonitorStackProps) :
    ((orgAccessPolicy props).isSome = true ↔
      ∃ s, props.organizationId = some s ∧ s ≠ "") ∧
    (∀ s, props.organizationId = some s → s ≠ "" →
      orgAccessPolicy props = some
        { eventBusName := "hub-root-activity"
          statementId := "OrganizationAccess"
          action := "events:PutEvents"
          principal := "*"
          conditionType := "StringEquals"
          conditionKey := "aws:PrincipalOrgID"
          conditionValue := s }) := by
  refine ⟨⟨?_, ?_⟩, ?_⟩
  · intro h
    cases horg : props.organizationId with
    | none => simp [orgAccessPolicy, horg] at h
    | some s =>
      refine ⟨s, rfl, ?_⟩
      intro hempty
      simp [orgAccessPolicy, horg, hempty] at h
  · rintro ⟨s, hs, hne⟩
    simp [orgAccessPolicy, hs, hne]
  · intro s hs hne
    simp [orgAccessPolicy, hs, hne]

/-- C9 witness: a concrete non-empty organization id yields exactly the
org-scoped `events:PutEvents` policy. -/
theorem orgAccessPolicy_correct_witness :
    orgAccessPolicy { snsTopicName := none,
                      notificationEmail := "sec@example.com",
                      organizationId := some "o-abc123" }
      = some { eventBusName := "hub-root-activity",
               statementId := "OrganizationAccess",
               action := "events:PutEvents",
               principal := "*",
               conditionType := "StringEquals",
               conditionKey := "aws:PrincipalOrgID",
               conditionValue := "o-abc123" } :=
  (orgAccessPolicy_correct { snsTopicName := none,
                             notificationEmail := "sec@example.com",
                             organizationId := some "o-abc123" }).2
    "o-abc123" rfl (by decide)

/-- C10: with neither the notificationEmail context value nor the
NOTIFICATION_EMAIL environment variable set, the app entry point fails
before constructing the stack; and no run of the entry point ever
synthesizes a stack whose email subscription is empty. -/
theorem app_requires_notification_email
    (ctxEmail envEmail ctxOrg envOrg ctxTopic : Option String) :
    appMain none none ctxOrg envOrg ctxTopic
      = Except.error "Notification email is required" ∧
    (∀ st : SynthesizedStack,
      appMain ctxEmail envEmail ctxOrg envOrg ctxTopic = Except.ok st →
      st.emailSubscription ≠ "") := by
  constructor
  · rfl
  · intro st hst
    unfold appMain at hst
    cases hj : jsOr ctxEmail envEmail with
    | none =>
      rw [hj] at hst
      exact absurd hst (by simp)
    | some email =>
      rw [hj] at hst
      dsimp only at hst
      by_cases hempty : email = ""
      · rw [if_pos hempty] at hst
        exact absurd hst (by simp)
      · rw [if_neg hempty] at hst
        simp only [Except.ok.injEq] at hst
        rw [← hst]
        exact hempty

/-- C10 witness: the unconfigured app fails with the guard error, and a
configured run produces a stack subscribed to the provided address. -/
theorem app_requires_notification_email_witness :
    appMain none none none none none
      = Except.error "Notification email is required" ∧
    (mkStack { snsTopicName := none,
               notificationEmail := "sec@example.com",
               organizationId := none }).emailSubscription ≠ "" :=
  ⟨(app_requires_notification_email none none none none none).1,
   (app_requires_notification_email (some "sec@example.com") none none none none).2
     (mkStack { snsTopicName := none,
                notificationEmail := "sec@example.com",
                organizationId := none }) rfl⟩

end RootActivityMonitor
